import Mathlib

/-!
Verification of the media-utilities single-frame extraction tool
(src/extract_single_frame_from_video.py).

The script is modelled as a shallow embedding: Python floats become exact
rationals, the filesystem and the two external tools (ffprobe, ffmpeg) become
an explicit environment record, and the observable behaviour of a run (lines
printed, external processes spawned, exception raised) becomes an explicit
trace value.
-/

attribute [local semireducible] Rat.mul Rat.inv Rat.add Rat.sub Rat.ofScientific

namespace MediaUtilities

/-- Python str.split with a one-character separator, over character lists.
The accumulator holds the current field in reverse. -/
def pySplitAux (sep : Char) : List Char → List Char → List (List Char)
  | [], acc => [acc.reverse]
  | x :: xs, acc =>
    if x = sep then acc.reverse :: pySplitAux sep xs []
    else pySplitAux sep xs (x :: acc)

/-- Python str.split(sep) for a one-character separator. -/
def pySplit (s : String) (sep : Char) : List String :=
  (pySplitAux sep s.toList []).map fun cs => ⟨cs⟩

/-- Python str.endswith(suffix). -/
def pyEndsWith (s suffix : String) : Bool :=
  List.isSuffixOf suffix.toList s.toList

/-- posixpath.basename: the part of the path after the last slash. -/
def posixBasename (p : String) : String :=
  ⟨(p.toList.reverse.takeWhile (fun c => c ≠ '/')).reverse⟩

/-- posixpath.dirname: the part of the path up to the last slash, with trailing
slashes stripped unless the head consists only of slashes. -/
def posixDirname (p : String) : String :=
  let head := (p.toList.reverse.dropWhile (fun c => c ≠ '/')).reverse
  if head ≠ [] ∧ head.any (fun c => c ≠ '/') then
    ⟨(head.reverse.dropWhile (fun c => c = '/')).reverse⟩
  else ⟨head⟩

/-- posixpath.join for two components. -/
def posixJoin (a b : String) : String :=
  if b.toList.headD ' ' = '/' then b
  else if a = "" ∨ a.toList.getLastD ' ' = '/' then a ++ b
  else a ++ "/" ++ b

/-- Python float() restricted to the nonnegative integer numerals that occur in
ffprobe r_frame_rate fields; any other text is a conversion failure
(a ValueError in Python). -/
def pyFloat? (s : String) : Option ℚ :=
  if s.toList ≠ [] ∧ s.toList.all (fun c => c.isDigit) then
    some ((s.toList.foldl (fun n c => 10 * n + (c.toNat - 48)) 0 : ℕ) : ℚ)
  else none

/-- Rounding to the nearest integer with ties to even, the rounding Python
uses when formatting a float with a fixed number of decimals. -/
def roundHalfEven (q : ℚ) : ℤ :=
  if q - ⌊q⌋ < 1/2 then ⌊q⌋
  else if (1:ℚ)/2 < q - ⌊q⌋ then ⌊q⌋ + 1
  else if ⌊q⌋ % 2 = 0 then ⌊q⌋ else ⌊q⌋ + 1

/-- Left-pad a string with zeros up to the given width. -/
def padZero (s : String) (w : ℕ) : String :=
  ⟨List.replicate (w - s.length) '0'⟩ ++ s

/-- Python format specifier 0>2 applied to an integer. -/
def intPad2 (n : ℤ) : String := padZero (toString n) 2

/-- Python format specifier 05.2f: fixed-point with exactly two decimal digits,
zero-padded to a total width of five. -/
def formatFixed2Pad5 (s : ℚ) : String :=
  let c := roundHalfEven (s * 100)
  if c < 0 then
    "-" ++ padZero (toString ((-c) / 100) ++ "." ++ intPad2 ((-c) % 100)) 4
  else
    padZero (toString (c / 100) ++ "." ++ intPad2 (c % 100)) 5

/-- Python divmod on exact numbers: floor quotient and remainder. -/
def pyDivmod (a b : ℚ) : ℤ × ℚ := (⌊a / b⌋, a - b * ⌊a / b⌋)

/-- Lines 72 and 73: hours, minutes and seconds of a duration given in seconds,
via divmod by 3600 and then by 60. -/
def decompose (t : ℚ) : ℤ × ℤ × ℚ :=
  (⌊t / 3600⌋, (pyDivmod (pyDivmod t 3600).2 60).1, (pyDivmod (pyDivmod t 3600).2 60).2)

/-- Line 74: the HH:MM:SS.ss seek string for a duration in seconds. -/
def timeToSeek (t : ℚ) : String :=
  intPad2 (decompose t).1 ++ ":" ++ intPad2 (decompose t).2.1 ++ ":"
    ++ formatFixed2Pad5 (decompose t).2.2

/-- Lines 71 to 74: the seek timestamp of a frame index at a frame rate, over an
exact rational embedding of the float arithmetic. -/
def seekTimestamp (frame : ℤ) (frameRate : ℚ) : String :=
  timeToSeek ((frame : ℚ) / frameRate)

/-- Python-style modulus on rationals. -/
def pyMod (a b : ℚ) : ℚ := a - b * ⌊a / b⌋

/-- The seek timestamp exactly as claim C1 words it: hours is the floor of
timeOfFrame over 3600, minutes the floor of the 3600-remainder over 60, seconds
the 3600-remainder modulo 60, formatted with the same field widths. -/
def claimSeekTimestamp (frame : ℤ) (frameRate : ℚ) : String :=
  intPad2 ⌊((frame : ℚ) / frameRate) / 3600⌋ ++ ":"
    ++ intPad2 ⌊pyMod ((frame : ℚ) / frameRate) 3600 / 60⌋ ++ ":"
    ++ formatFixed2Pad5 (pyMod (pyMod ((frame : ℚ) / frameRate) 3600) 60)

/-- Python exception values that the script can raise: ValueError from the
extension check or a failed float conversion, IndexError (a LookupError) from
indexing an empty list, ZeroDivisionError from float division by zero. -/
inductive PyError where
  | valueError (msg : String)
  | indexError (msg : String)
  | zeroDivisionError (msg : String)
deriving DecidableEq

/-- Python float division, which raises ZeroDivisionError on a zero divisor. -/
def pyDiv (a b : ℚ) : Except PyError ℚ :=
  if b = 0 then .error (.zeroDivisionError "float division by zero") else .ok (a / b)

/-- One stream descriptor of the ffprobe JSON output, with the two fields the
script reads. -/
structure StreamInfo where
  codec_type : String
  r_frame_rate : String
deriving DecidableEq

/-- The parsed ffprobe JSON document, with the streams key the script reads. -/
structure ProbeResult where
  streams : List StreamInfo
deriving DecidableEq

/-- The environment of one run: which paths exist on disk, what ffprobe
reports for the input file, and the exit code ffmpeg would return. -/
structure World where
  existingFiles : List String
  probeResult : ProbeResult
  ffmpegExitCode : ℤ
deriving DecidableEq

/-- The observable effects of a run: lines printed to stdout and the argv of
each external process spawned, in order. -/
structure Trace where
  printed : List String
  procs : List (List String)
deriving DecidableEq

/-- os.path.exists against the modelled filesystem. -/
def pathExists (w : World) (p : String) : Bool := w.existingFiles.contains p

/-- Line 35: the ffprobe command line. -/
def ffprobeCmd (file_path : String) : List String :=
  ["ffprobe", "-i", file_path, "-v", "quiet", "-print_format", "json",
   "-show_format", "-show_streams"]

/-- Lines 76 to 79: the ffmpeg command line, with -y inserted at index 1 when
overwriting is enabled. -/
def ffmpegCmd (video_path time_to_seek output_path : String) (overwrite : Bool) :
    List String :=
  if overwrite then
    ["ffmpeg", "-y", "-i", video_path, "-ss", time_to_seek, "-frames:v", "1",
     "-pix_fmt", "yuvj420p", output_path]
  else
    ["ffmpeg", "-i", video_path, "-ss", time_to_seek, "-frames:v", "1",
     "-pix_fmt", "yuvj420p", output_path]

/-- Line 68: the first stream whose codec_type is video; indexing the empty
filtered list raises IndexError, Python's LookupError subclass. -/
def selectVideoStream (pr : ProbeResult) : Except PyError StreamInfo :=
  match pr.streams.filter (fun s => s.codec_type == "video") with
  | [] => .error (.indexError "list index out of range")
  | s :: _ => .ok s

/-- Line 69: split the r_frame_rate text on the slash, convert the first two
fields with float(), and divide, in Python evaluation order. -/
def parseFrameRate (txt : String) : Except PyError ℚ :=
  let parts := pySplit txt '/'
  match pyFloat? (parts.headD "") with
  | none => .error (.valueError "could not convert string to float")
  | some num =>
    match parts.get? 1 with
    | none => .error (.indexError "list index out of range")
    | some denTxt =>
      match pyFloat? denTxt with
      | none => .error (.valueError "could not convert string to float")
      | some den => pyDiv num den

/-- Lines 52 to 54: the default output path, built from the input basename cut
at its first dot, placed next to the input. -/
def derivedOutputPath (video_path : String) : String :=
  posixJoin (posixDirname video_path)
    ((pySplit (posixBasename video_path) '.').headD "" ++ "_extractedFrame.jpg")

/-- Line 51: the output path after the default derivation. The source compares
with the Python identity operator against the literal empty string, which on
the interned empty strings the CLI produces behaves as equality. -/
def resolveOutput (video_path output_path : String) : String :=
  if output_path = "" then derivedOutputPath video_path else output_path

/-- Line 57 and line 101 share this exception message. -/
def jpgErrorMsg : String := "The output path must end with a .jpg extension"

/-- Line 62 and line 106 share this notice text. -/
def existsOverwriteMsg (p : String) : String :=
  "A file named " ++ p ++ " already exists and will be overwritten."

/-- Line 64 notice text. -/
def existsNoOverwriteMsg (p : String) : String :=
  "A file named " ++ p ++
    " already exists and will not be overwritten. Please provide a different output path or enable overwriting."

/-- An ASCII single-quote character, kept out of the string literals. -/
def quoteChar : String := ⟨[Char.ofNat 39]⟩

/-- Line 108 notice text. -/
def mainNoOverwriteMsg (p : String) : String :=
  "A file named " ++ p ++
    " already exists and will not be overwritten. Please provide a different output path or use the "
    ++ quoteChar ++ "--overwrite" ++ quoteChar ++ " flag."

/-- Lines 67 to 80: probe, stream selection, frame-rate parsing, timestamp
computation and the ffmpeg invocation. subprocess.run is called without any
check of its result, so the ffmpeg exit code never influences the outcome. -/
def extractTail (w : World) (video_path : String) (frame : ℤ) (output_path : String)
    (overwrite : Bool) (printed : List String) : Trace × Option PyError :=
  match selectVideoStream w.probeResult with
  | .error e => (⟨printed, [ffprobeCmd video_path]⟩, some e)
  | .ok s =>
    match parseFrameRate s.r_frame_rate with
    | .error e => (⟨printed, [ffprobeCmd video_path]⟩, some e)
    | .ok frame_rate =>
      match pyDiv (frame : ℚ) frame_rate with
      | .error e => (⟨printed, [ffprobeCmd video_path]⟩, some e)
      | .ok time_of_frame =>
        (⟨printed, [ffprobeCmd video_path,
          ffmpegCmd video_path (timeToSeek time_of_frame) output_path overwrite]⟩, none)

/-- Lines 39 to 80: the extraction function. Derive the output path when none
is given, check the extension, short-circuit on an existing output file, then
probe and extract. -/
def extract_single_frame_from_video (w : World) (video_path : String) (frame : ℤ)
    (output_path : String) (overwrite_existing_files : Bool) : Trace × Option PyError :=
  let out := resolveOutput video_path output_path
  if pyEndsWith out ".jpg" = false then
    (⟨[], []⟩, some (.valueError jpgErrorMsg))
  else if pathExists w out = true then
    if overwrite_existing_files then
      extractTail w video_path frame out overwrite_existing_files [existsOverwriteMsg out]
    else
      (⟨[existsNoOverwriteMsg out], []⟩, none)
  else
    extractTail w video_path frame out overwrite_existing_files []

/-- The parsed command line: input (line 89), output defaulting to the empty
string (line 90), frame defaulting to 1 (line 91), and the overwrite flag
defaulting to false (line 92). -/
structure Args where
  input : String
  output : String
  frame : ℤ
  overwrite : Bool
deriving DecidableEq

/-- Prefix one printed line onto a run result. -/
def withPrint (msg : String) (r : Trace × Option PyError) : Trace × Option PyError :=
  (⟨msg :: r.1.printed, r.1.procs⟩, r.2)

/-- Lines 82 to 111: the entry point, without the doctest flag. The checks on
lines 100 to 109 run only for a non-empty explicit output. Line 111 passes
only input, frame and output to the extraction function, so its
overwrite_existing_files parameter always takes its default value true there,
whatever the --overwrite flag said. -/
def main (w : World) (args : Args) : Trace × Option PyError :=
  if args.output ≠ "" ∧ pyEndsWith args.output ".jpg" = false then
    (⟨[], []⟩, some (.valueError jpgErrorMsg))
  else if args.output ≠ "" ∧ pathExists w args.output = true then
    if args.overwrite then
      withPrint (existsOverwriteMsg args.output)
        (extract_single_frame_from_video w args.input args.frame args.output true)
    else
      (⟨[mainNoOverwriteMsg args.output], []⟩, none)
  else
    extract_single_frame_from_video w args.input args.frame args.output true

/-- How many of the spawned processes are ffmpeg invocations. -/
def ffmpegInvocations (t : Trace) : ℕ :=
  (t.procs.filter (fun c => c.headD "" == "ffmpeg")).length

/-- The whole program exits zero exactly when no exception escaped. -/
def exitsZero (r : Trace × Option PyError) : Bool := r.2.isNone

/-- Environment for the C2 run: the derived output path already exists, the
input has an ordinary 24 fps video stream, ffmpeg would succeed. -/
def derivedClashWorld : World :=
  ⟨["/a/b/clip_extractedFrame.jpg"], ⟨[⟨"video", "24/1"⟩]⟩, 0⟩

/-- Command line for the C2 run: input only, no explicit output, frame 1, and
no --overwrite flag. -/
def derivedClashArgs : Args := ⟨"/a/b/clip.mov", "", 1, false⟩

/-- Environment for the C3 run: nothing exists yet, the input has a 24 fps
video stream, and ffmpeg exits with code 1. -/
def ffmpegFailWorld : World := ⟨[], ⟨[⟨"video", "24/1"⟩]⟩, 1⟩

/-- Command line for the C3 run: explicit fresh output, frame 240. -/
def ffmpegFailArgs : Args := ⟨"/a/b/clip.mov", "/a/b/out.jpg", 240, false⟩

/-- Environment for the C4 counterexample: the explicit non-jpg output path
already exists. -/
def pngClashWorld : World := ⟨["/a/b/out.png"], ⟨[⟨"video", "24/1"⟩]⟩, 0⟩

/-- Environment for the C7 witness: an audio-only input file. -/
def audioOnlyWorld : World := ⟨[], ⟨[⟨"audio", "44100/1"⟩]⟩, 0⟩

/-- Appending on the left preserves a string suffix. -/
theorem pyEndsWith_append (s t suffix : String) (h : pyEndsWith t suffix = true) :
    pyEndsWith (s ++ t) suffix = true := by
  simp only [pyEndsWith, List.isSuffixOf_iff_suffix] at h ⊢
  exact h.trans (List.suffix_append s.toList t.toList)

/-- The derived default output path always carries the .jpg suffix. -/
theorem pyEndsWith_derivedOutputPath (v : String) :
    pyEndsWith (derivedOutputPath v) ".jpg" = true := by
  have hbase : ∀ s : String, pyEndsWith (s ++ "_extractedFrame.jpg") ".jpg" = true :=
    fun s => pyEndsWith_append s "_extractedFrame.jpg" ".jpg" (by decide)
  unfold derivedOutputPath posixJoin
  split
  · exact hbase _
  · split
    · exact pyEndsWith_append _ _ _ (hbase _)
    · exact pyEndsWith_append _ _ _ (hbase _)

/-- A resolved output path ends in .jpg whenever the explicit one does or the
default derivation ran. -/
theorem pyEndsWith_resolveOutput (v out : String)
    (h : out = "" ∨ pyEndsWith out ".jpg" = true) :
    pyEndsWith (resolveOutput v out) ".jpg" = true := by
  unfold resolveOutput
  split
  · exact pyEndsWith_derivedOutputPath v
  · rcases h with h | h
    · simp_all
    · exact h

/-- A trace that only ran ffprobe contains no ffmpeg invocation. -/
theorem ffmpegInvocations_probe_only (pr : List String) (v : String) :
    ffmpegInvocations ⟨pr, [ffprobeCmd v]⟩ = 0 := rfl

/-- A trace that ran ffprobe and then ffmpeg contains one ffmpeg invocation. -/
theorem ffmpegInvocations_probe_ffmpeg (pr : List String) (v t o : String) (ow : Bool) :
    ffmpegInvocations ⟨pr, [ffprobeCmd v, ffmpegCmd v t o ow]⟩ = 1 := by
  cases ow <;> rfl

/-- The probe-onward part of the extraction spawns ffmpeg at most once. -/
theorem ffmpegInvocations_extractTail_le (w : World) (v : String) (f : ℤ)
    (out : String) (ow : Bool) (pr : List String) :
    ffmpegInvocations (extractTail w v f out ow pr).1 ≤ 1 := by
  unfold extractTail
  cases hs : selectVideoStream w.probeResult with
  | error e => simp [ffmpegInvocations_probe_only]
  | ok s =>
    cases hp : parseFrameRate s.r_frame_rate with
    | error e => simp [hp, ffmpegInvocations_probe_only]
    | ok fr =>
      cases hd : pyDiv (f : ℚ) fr with
      | error e => simp [hp, hd, ffmpegInvocations_probe_only]
      | ok t => simp [hp, hd, ffmpegInvocations_probe_ffmpeg]

/-- The extraction function spawns ffmpeg at most once. -/
theorem ffmpegInvocations_extract_le (w : World) (v : String) (f : ℤ)
    (out : String) (ow : Bool) :
    ffmpegInvocations (extract_single_frame_from_video w v f out ow).1 ≤ 1 := by
  unfold extract_single_frame_from_video
  dsimp only
  split
  · simp [ffmpegInvocations]
  · split
    · split
      · exact ffmpegInvocations_extractTail_le ..
      · simp [ffmpegInvocations]
    · exact ffmpegInvocations_extractTail_le ..

/-- C1: the seek timestamp is frameIndex over frameRate seconds, decomposed by
floor and modulus into hours, minutes and seconds and formatted as zero-padded
HH:MM:SS.ss with a width-5 two-decimal seconds field; frame 240 at rate 24
gives 00:00:10.00 and frame 1 at rate 30000/1001 gives 00:00:00.03. -/
theorem c1_seek_timestamp_formula_and_examples :
    (∀ (frame : ℤ) (frameRate : ℚ),
      seekTimestamp frame frameRate = claimSeekTimestamp frame frameRate)
    ∧ seekTimestamp 240 24 = "00:00:10.00"
    ∧ seekTimestamp 1 (30000/1001) = "00:00:00.03" :=
  ⟨fun _ _ => rfl, by decide, by decide⟩

/-- C2: at the failing input (input /a/b/clip.mov, no explicit output, derived
output /a/b/clip_extractedFrame.jpg already existing, --overwrite absent) the
program does not stop: it prints the will-be-overwritten notice and runs
ffmpeg with the -y force flag on the existing file, because line 111 does not
forward args.overwrite and the callee defaults to overwriting. -/
theorem c2_overwrite_flag_not_forwarded :
    main derivedClashWorld derivedClashArgs =
      (⟨[existsOverwriteMsg "/a/b/clip_extractedFrame.jpg"],
        [ffprobeCmd "/a/b/clip.mov",
         ffmpegCmd "/a/b/clip.mov" "00:00:00.04" "/a/b/clip_extractedFrame.jpg" true]⟩,
       none)
    ∧ derivedClashArgs.overwrite = false
    ∧ pathExists derivedClashWorld "/a/b/clip_extractedFrame.jpg" = true := by
  refine ⟨by decide, by decide, by decide⟩

/-- C3 counterexample: ffmpeg exits non-zero (code 1) in this run, ffmpeg was
invoked, yet no error is raised and the whole program exits zero, refuting the
claimed propagation as a non-zero process exit. -/
theorem c3_counterexample_ffmpeg_failure_exits_zero :
    ffmpegFailWorld.ffmpegExitCode = 1
    ∧ ffmpegInvocations (main ffmpegFailWorld ffmpegFailArgs).1 = 1
    ∧ (main ffmpegFailWorld ffmpegFailArgs).2 = none
    ∧ exitsZero (main ffmpegFailWorld ffmpegFailArgs) = true := by
  refine ⟨by decide, by decide, by decide, by decide⟩

/-- C3 amended: the ffmpeg exit code is never inspected, so a non-zero exit
raises nothing and the program result is identical under any exit code; the
extraction is never retried, ffmpeg being invoked at most once per run. -/
theorem c3_amended_exit_code_ignored_never_retried (w : World) (args : Args) (e : ℤ) :
    main ⟨w.existingFiles, w.probeResult, e⟩ args = main w args
    ∧ ffmpegInvocations (main w args).1 ≤ 1 := by
  refine ⟨rfl, ?_⟩
  unfold main
  split
  · simp [ffmpegInvocations]
  · split
    · split
      · exact ffmpegInvocations_extract_le ..
      · simp [ffmpegInvocations]
    · exact ffmpegInvocations_extract_le ..

/-- C4 counterexample: overwrite is disabled and the resolved output path
/a/b/out.png already exists, yet the call raises the ValueError instead of
printing a notice and returning normally, because the extension check precedes
the existence check. -/
theorem c4_counterexample_existing_non_jpg_output_raises :
    extract_single_frame_from_video pngClashWorld "/a/b/clip.mov" 1 "/a/b/out.png" false
      = (⟨[], []⟩, some (.valueError jpgErrorMsg))
    ∧ pathExists pngClashWorld "/a/b/out.png" = true := by
  refine ⟨by decide, by decide⟩

/-- C4 amended: for every call with overwriting disabled whose resolved output
path exists, provided the output path is empty or ends in .jpg, the function
prints the notice and returns normally: no error, no external process, no
write. -/
theorem c4_amended_existing_output_short_circuit (w : World) (video : String)
    (frame : ℤ) (out : String) (hjpg : out = "" ∨ pyEndsWith out ".jpg" = true)
    (hex : pathExists w (resolveOutput video out) = true) :
    extract_single_frame_from_video w video frame out false
      = (⟨[existsNoOverwriteMsg (resolveOutput video out)], []⟩, none) := by
  have hj := pyEndsWith_resolveOutput video out hjpg
  unfold extract_single_frame_from_video
  simp [hj, hex]

/-- Witness for the amended C4 at a concrete call with a derived output path
that already exists. -/
theorem c4_amended_witness :
    (("" : String) = "" ∨ pyEndsWith "" ".jpg" = true)
    ∧ pathExists derivedClashWorld (resolveOutput "/a/b/clip.mov" "") = true
    ∧ extract_single_frame_from_video derivedClashWorld "/a/b/clip.mov" 1 "" false
      = (⟨[existsNoOverwriteMsg (resolveOutput "/a/b/clip.mov" "")], []⟩, none) :=
  ⟨Or.inl rfl, by decide,
   c4_amended_existing_output_short_circuit derivedClashWorld "/a/b/clip.mov" 1 ""
     (Or.inl rfl) (by decide)⟩

/-- C5: a non-empty output path that does not end in .jpg raises the
ValueError with no line printed and no external process spawned. -/
theorem c5_bad_extension_raises_before_any_process (w : World) (video : String)
    (frame : ℤ) (out : String) (ow : Bool) (hne : out ≠ "")
    (hjpg : pyEndsWith out ".jpg" = false) :
    extract_single_frame_from_video w video frame out ow
      = (⟨[], []⟩, some (.valueError jpgErrorMsg)) := by
  unfold extract_single_frame_from_video resolveOutput
  simp [hne, hjpg]

/-- Witness for C5 at a concrete call with output out.png. -/
theorem c5_witness :
    (("out.png" : String) ≠ "" ∧ pyEndsWith "out.png" ".jpg" = false)
    ∧ extract_single_frame_from_video ⟨[], ⟨[]⟩, 0⟩ "v.mov" 1 "out.png" true
      = (⟨[], []⟩, some (.valueError jpgErrorMsg)) :=
  ⟨⟨by decide, by decide⟩,
   c5_bad_extension_raises_before_any_process ⟨[], ⟨[]⟩, 0⟩ "v.mov" 1 "out.png" true
     (by decide) (by decide)⟩

/-- C6: with an empty output path the output is derived by joining the input
directory with the input basename cut at its first dot plus
_extractedFrame.jpg; both /a/b/clip.mov and the multi-dot /a/b/clip.v2.mov
derive /a/b/clip_extractedFrame.jpg. -/
theorem c6_default_output_path_derivation :
    (∀ video : String, resolveOutput video "" =
      posixJoin (posixDirname video)
        ((pySplit (posixBasename video) '.').headD "" ++ "_extractedFrame.jpg"))
    ∧ derivedOutputPath "/a/b/clip.mov" = "/a/b/clip_extractedFrame.jpg"
    ∧ derivedOutputPath "/a/b/clip.v2.mov" = "/a/b/clip_extractedFrame.jpg" :=
  ⟨fun _ => rfl, by decide, by decide⟩

/-- C7: when no stream descriptor has codec type video, every call that
reaches the probe raises the IndexError (Python LookupError) right after the
single ffprobe invocation: ffmpeg never runs and no timestamp is computed. -/
theorem c7_no_video_stream_raises_lookup_failure (w : World) (video : String)
    (frame : ℤ) (out : String) (ow : Bool)
    (hnov : w.probeResult.streams.filter (fun s => s.codec_type == "video") = [])
    (hjpg : pyEndsWith (resolveOutput video out) ".jpg" = true)
    (hfree : pathExists w (resolveOutput video out) = false ∨ ow = true) :
    (extract_single_frame_from_video w video frame out ow).2
      = some (.indexError "list index out of range")
    ∧ (extract_single_frame_from_video w video frame out ow).1.procs
      = [ffprobeCmd video] := by
  have htail : ∀ pr, extractTail w video frame (resolveOutput video out) ow pr
      = (⟨pr, [ffprobeCmd video]⟩, some (.indexError "list index out of range")) := by
    intro pr
    unfold extractTail selectVideoStream
    rw [hnov]
  unfold extract_single_frame_from_video
  rcases hfree with h | h
  · simp [hjpg, h, htail]
  · subst h
    by_cases hex : pathExists w (resolveOutput video out) = true
    · simp [hjpg, hex, htail]
    · simp [hjpg, hex, htail]

/-- Witness for C7 at a concrete audio-only probe result. -/
theorem c7_witness :
    (audioOnlyWorld.probeResult.streams.filter (fun s => s.codec_type == "video") = []
      ∧ pyEndsWith (resolveOutput "/a/b/clip.mov" "") ".jpg" = true
      ∧ pathExists audioOnlyWorld (resolveOutput "/a/b/clip.mov" "") = false)
    ∧ (extract_single_frame_from_video audioOnlyWorld "/a/b/clip.mov" 1 "" false).2
      = some (.indexError "list index out of range")
    ∧ (extract_single_frame_from_video audioOnlyWorld "/a/b/clip.mov" 1 "" false).1.procs
      = [ffprobeCmd "/a/b/clip.mov"] :=
  ⟨⟨by decide, by decide, by decide⟩,
   c7_no_video_stream_raises_lookup_failure audioOnlyWorld "/a/b/clip.mov" 1 "" false
     (by decide) (by decide) (Or.inl (by decide))⟩

/-- C8: for frame at least 1 and a positive rate, the hours, minutes and
seconds of the decomposition reconstruct frameIndex over frameRate exactly
over the rational embedding. -/
theorem c8_decomposition_reconstructs_time (frame : ℤ) (frameRate : ℚ)
    (h1 : 1 ≤ frame) (h2 : 0 < frameRate) :
    ((decompose ((frame : ℚ) / frameRate)).1 * 3600 : ℚ)
      + (decompose ((frame : ℚ) / frameRate)).2.1 * 60
      + (decompose ((frame : ℚ) / frameRate)).2.2
      = (frame : ℚ) / frameRate := by
  simp only [decompose, pyDivmod]
  ring

/-- Witness for C8 at frame 240 and rate 24. -/
theorem c8_witness :
    ((1 : ℤ) ≤ 240 ∧ (0 : ℚ) < 24)
    ∧ ((decompose ((240 : ℚ) / 24)).1 * 3600 : ℚ)
      + (decompose ((240 : ℚ) / 24)).2.1 * 60
      + (decompose ((240 : ℚ) / 24)).2.2
      = (240 : ℚ) / 24 :=
  ⟨⟨by decide, by decide⟩, c8_decomposition_reconstructs_time 240 24 (by decide) (by decide)⟩

/-- C9: a frame-rate text that splits into a numerator numeral and the
denominator numeral 0 makes the unguarded division raise ZeroDivisionError;
no separate denominator check runs first. -/
theorem c9_zero_denominator_division_error (txt numTxt denTxt : String) (q : ℚ)
    (hsplit : pySplit txt '/' = [numTxt, denTxt])
    (hnum : pyFloat? numTxt = some q)
    (hden : pyFloat? denTxt = some 0) :
    parseFrameRate txt = .error (.zeroDivisionError "float division by zero") := by
  unfold parseFrameRate
  rw [hsplit]
  simp [hnum, hden, pyDiv]

/-- Witness for C9 at the concrete frame-rate text 30000/0. -/
theorem c9_witness :
    (pySplit "30000/0" '/' = ["30000", "0"]
      ∧ pyFloat? "30000" = some 30000
      ∧ pyFloat? "0" = some 0)
    ∧ parseFrameRate "30000/0" = .error (.zeroDivisionError "float division by zero") :=
  ⟨⟨by decide, by decide, by decide⟩,
   c9_zero_denominator_division_error "30000/0" "30000" "0" 30000
     (by decide) (by decide) (by decide)⟩

/-- C10: at frame 59999 and rate 1000 the time of frame is 59.999 seconds,
strictly below one minute, yet the two-decimal rounding prints the seconds
field as 60.00 with no carry into the zero minutes field, producing
00:00:60.00. -/
theorem c10_seconds_field_rounds_to_sixty :
    seekTimestamp 59999 1000 = "00:00:60.00"
    ∧ ((59999 : ℚ) / 1000 < 60)
    ∧ (decompose ((59999 : ℚ) / 1000)).1 = 0
    ∧ (decompose ((59999 : ℚ) / 1000)).2.1 = 0 := by
  refine ⟨by decide, by decide, by decide, by decide⟩

end MediaUtilities

